import Mathlib

/-!
Verification of the three request handlers of this repository
(`mqtt-lambda/app.py`, `webhook-lambda/app.py`, `websocket-lambda/app.py`)
against their natural-language specification.

The handlers receive a JSON-decoded event value and return either a
response dictionary or raise a Python exception.  We embed the JSON value
domain, the relevant Python primitives (`event[k]`, `dict.get`,
`json.loads`, `json.dumps`, `str()` rendering used by f-strings), and the
three `lambda_handler` functions, translated line by line from the source.

Modelling notes:
* JSON numbers are modelled on the integer fragment (no fractional or
  exponent literals); none of the claims involves floating point.
* A lone UTF-16 surrogate in a `\u` escape is mapped through `Char.ofNat`
  (Lean has no surrogate code points); surrogate pairs are combined as
  CPython's `json` does.
* The text printed for exceptions other than `KeyError` is abbreviated;
  no theorem depends on the contents of the diagnostic log.
-/

set_option autoImplicit false

namespace LambdaApps

/-- The domain of JSON-decoded Python values: `None`, `bool`, `int`,
`str`, `list`, `dict` (a `dict` is kept as its insertion-ordered field
list; the parser never produces duplicate keys). -/
inductive Json : Type where
  | null : Json
  | bool (b : Bool) : Json
  | num (n : Int) : Json
  | str (s : String) : Json
  | arr (elems : List Json) : Json
  | obj (fields : List (String × Json)) : Json

/-- The Python exceptions that the embedded primitives can raise. -/
inductive PyErr : Type where
  | keyError (key : String) : PyErr
  | typeError : PyErr
  | attributeError : PyErr
  | jsonDecodeError : PyErr
deriving Repr, DecidableEq

/-- First-match lookup in a field list (parser output has unique keys, so
this agrees with Python `dict` lookup). -/
def jlookup : List (String × Json) → String → Option Json
  | [], _ => none
  | (k, v) :: rest, key => if k = key then some v else jlookup rest key

/-- Python subscript `event[k]` with a string key: on a `dict`, the value
or `KeyError`; on any other value, `TypeError`. -/
def subscript : Json → String → Except PyErr Json
  | .obj kvs, k =>
    match jlookup kvs k with
    | some v => .ok v
    | none => .error (.keyError k)
  | _, _ => .error .typeError

/-- Python `event.get(k, default)`: only a `dict` has the `get` method;
any other receiver raises `AttributeError`. -/
def dictGet : Json → String → Json → Except PyErr Json
  | .obj kvs, k, dflt => .ok ((jlookup kvs k).getD dflt)
  | _, _, _ => .error .attributeError

/-- Python equality `j == "lit"` between an arbitrary value and a string
literal: only an equal string compares equal; values of any other type
compare unequal. -/
def pyEqStr (j : Json) (lit : String) : Bool :=
  match j with
  | .str s => s = lit
  | _ => false

/-- Predicate used to state claims about mapping-shaped values. -/
def Json.isObj : Json → Bool
  | .obj _ => true
  | _ => false

/-- Predicate used to state claims about string values. -/
def Json.isStr : Json → Bool
  | .str _ => true
  | _ => false

/-! JSON parsing (the `json.loads` of CPython, restricted to integer
numerals). -/

/-- JSON insignificant whitespace. -/
def isJsonWs (c : Char) : Bool :=
  c = ' ' || c = '\t' || c = '\n' || c = '\r'

/-- Drop leading JSON whitespace. -/
def skipWs : List Char → List Char
  | c :: cs => if isJsonWs c then skipWs cs else c :: cs
  | [] => []

/-- Value of a hexadecimal digit, case insensitive. -/
def hexVal (c : Char) : Option Nat :=
  if '0' ≤ c ∧ c ≤ '9' then some (c.toNat - 48)
  else if 'a' ≤ c ∧ c ≤ 'f' then some (c.toNat - 87)
  else if 'A' ≤ c ∧ c ≤ 'F' then some (c.toNat - 55)
  else none

/-- Read exactly four hex digits. -/
def parseHex4 : List Char → Option (Nat × List Char)
  | a :: b :: c :: d :: rest =>
    match hexVal a, hexVal b, hexVal c, hexVal d with
    | some x, some y, some z, some w => some (((x * 16 + y) * 16 + z) * 16 + w, rest)
    | _, _, _, _ => none
  | _ => none

/-- Accumulate a run of decimal digits. -/
def takeDigits : List Char → Nat → Nat × List Char
  | c :: cs, acc =>
    if c.isDigit then takeDigits cs (acc * 10 + (c.toNat - 48)) else (acc, c :: cs)
  | [], acc => (acc, [])

/-- Unsigned JSON integer numeral: `0`, or a nonzero digit followed by
digits (leading zeros are not part of the grammar). -/
def parseNumNat : List Char → Option (Nat × List Char)
  | '0' :: cs => some (0, cs)
  | c :: cs => if c.isDigit then some (takeDigits cs (c.toNat - 48)) else none
  | [] => none

/-- Optionally signed JSON integer numeral. -/
def parseNum : List Char → Option (Int × List Char)
  | '-' :: cs => (parseNumNat cs).map (fun p => (-(p.1 : Int), p.2))
  | cs => (parseNumNat cs).map (fun p => ((p.1 : Int), p.2))

/-- Body of a JSON string literal after the opening quote, strict mode:
unescaped control characters are rejected, escapes are the standard eight
plus `\uXXXX` with surrogate-pair combination. -/
def parseStringAux : Nat → List Char → List Char → Option (String × List Char)
  | 0, _, _ => none
  | _ + 1, acc, '"' :: cs => some (String.mk acc.reverse, cs)
  | fuel + 1, acc, '\\' :: c :: cs =>
    match c with
    | '"' => parseStringAux fuel ('"' :: acc) cs
    | '\\' => parseStringAux fuel ('\\' :: acc) cs
    | '/' => parseStringAux fuel ('/' :: acc) cs
    | 'b' => parseStringAux fuel ('\x08' :: acc) cs
    | 'f' => parseStringAux fuel ('\x0c' :: acc) cs
    | 'n' => parseStringAux fuel ('\n' :: acc) cs
    | 'r' => parseStringAux fuel ('\r' :: acc) cs
    | 't' => parseStringAux fuel ('\t' :: acc) cs
    | 'u' =>
      match parseHex4 cs with
      | some (n, rest) =>
        if 0xD800 ≤ n ∧ n ≤ 0xDBFF then
          match rest with
          | '\\' :: 'u' :: rest2 =>
            match parseHex4 rest2 with
            | some (m, rest3) =>
              if 0xDC00 ≤ m ∧ m ≤ 0xDFFF then
                parseStringAux fuel
                  (Char.ofNat (0x10000 + (n - 0xD800) * 0x400 + (m - 0xDC00)) :: acc) rest3
              else parseStringAux fuel (Char.ofNat m :: Char.ofNat n :: acc) rest3
            | none => none
          | _ => parseStringAux fuel (Char.ofNat n :: acc) rest
        else parseStringAux fuel (Char.ofNat n :: acc) rest
      | none => none
    | _ => none
  | fuel + 1, acc, c :: cs =>
    if c.toNat < 0x20 then none else parseStringAux fuel (c :: acc) cs
  | _, _, [] => none

/-- Insert a parsed object field, overwriting an existing key in place as
a Python `dict` does. -/
def insertField : List (String × Json) → String → Json → List (String × Json)
  | [], k, v => [(k, v)]
  | (k', v') :: rest, k, v =>
    if k' = k then (k', v) :: rest else (k', v') :: insertField rest k v

mutual

/-- Parse one JSON value (fuel decreases at each nested parse; callers
supply fuel larger than twice the input length, which is never
exhausted). -/
def parseValue : Nat → List Char → Option (Json × List Char)
  | 0, _ => none
  | fuel + 1, cs =>
    match skipWs cs with
    | 'n' :: 'u' :: 'l' :: 'l' :: rest => some (.null, rest)
    | 't' :: 'r' :: 'u' :: 'e' :: rest => some (.bool true, rest)
    | 'f' :: 'a' :: 'l' :: 's' :: 'e' :: rest => some (.bool false, rest)
    | '"' :: rest =>
      (parseStringAux (rest.length + 1) [] rest).map (fun p => (Json.str p.1, p.2))
    | '[' :: rest =>
      match skipWs rest with
      | ']' :: rest2 => some (Json.arr [], rest2)
      | cs2 => (parseArrayRest fuel cs2).map (fun p => (Json.arr p.1, p.2))
    | '\x7b' :: rest =>
      match skipWs rest with
      | '\x7d' :: rest2 => some (Json.obj [], rest2)
      | cs2 => (parseObjRest fuel cs2 []).map (fun p => (Json.obj p.1, p.2))
    | other => (parseNum other).map (fun p => (Json.num p.1, p.2))

/-- Elements of a non-empty JSON array, positioned at the first element
or just after a comma. -/
def parseArrayRest : Nat → List Char → Option (List Json × List Char)
  | 0, _ => none
  | fuel + 1, cs =>
    match parseValue fuel cs with
    | some (v, rest) =>
      match skipWs rest with
      | ',' :: rest2 => (parseArrayRest fuel (skipWs rest2)).map (fun p => (v :: p.1, p.2))
      | ']' :: rest2 => some ([v], rest2)
      | _ => none
    | none => none

/-- Members of a non-empty JSON object, positioned at a key or just after
a comma. -/
def parseObjRest : Nat → List Char → List (String × Json) →
    Option (List (String × Json) × List Char)
  | 0, _, _ => none
  | fuel + 1, cs, acc =>
    match cs with
    | '"' :: rest =>
      match parseStringAux (rest.length + 1) [] rest with
      | some (k, rest2) =>
        match skipWs rest2 with
        | ':' :: rest3 =>
          match parseValue fuel (skipWs rest3) with
          | some (v, rest4) =>
            match skipWs rest4 with
            | ',' :: rest5 => parseObjRest fuel (skipWs rest5) (insertField acc k v)
            | '\x7d' :: rest5 => some (insertField acc k v, rest5)
            | _ => none
          | none => none
        | _ => none
      | none => none
    | _ => none

end

/-- Parse a complete JSON document: one value, with only whitespace
around it. -/
def parseJson (s : String) : Option Json :=
  match parseValue (2 * s.length + 2) s.toList with
  | some (v, rest) => if skipWs rest = [] then some v else none
  | none => none

/-- Python `json.loads`: requires a string argument (`TypeError`
otherwise), raises `JSONDecodeError` on a syntactically invalid
document. -/
def loads : Json → Except PyErr Json
  | .str s =>
    match parseJson s with
    | some v => .ok v
    | none => .error .jsonDecodeError
  | _ => .error .typeError

/-! Serialization (`json.dumps` with CPython defaults) and the `str()`
rendering used by f-strings. -/

/-- Lowercase hexadecimal digit. -/
def hexDigitChar (n : Nat) : Char :=
  if n < 10 then Char.ofNat (48 + n) else Char.ofNat (87 + n)

/-- Four lowercase hex digits, as in a `\uXXXX` escape. -/
def hex4 (n : Nat) : String :=
  String.mk [hexDigitChar (n / 4096 % 16), hexDigitChar (n / 256 % 16),
    hexDigitChar (n / 16 % 16), hexDigitChar (n % 16)]

/-- Two lowercase hex digits, as in a `\xXX` escape. -/
def hex2 (n : Nat) : String :=
  String.mk [hexDigitChar (n / 16 % 16), hexDigitChar (n % 16)]

/-- One character of a JSON string literal under `json.dumps` defaults
(`ensure_ascii=True`: everything outside printable ASCII is escaped). -/
def escapeJsonChar (c : Char) : String :=
  if c = '"' then "\\\""
  else if c = '\\' then "\\\\"
  else if c = '\n' then "\\n"
  else if c = '\r' then "\\r"
  else if c = '\t' then "\\t"
  else if c = '\x08' then "\\b"
  else if c = '\x0c' then "\\f"
  else if c.toNat < 0x20 ∨ c.toNat > 0x7e then
    if c.toNat ≤ 0xFFFF then "\\u" ++ hex4 c.toNat
    else
      "\\u" ++ hex4 (0xD800 + (c.toNat - 0x10000) / 0x400) ++
      "\\u" ++ hex4 (0xDC00 + (c.toNat - 0x10000) % 0x400)
  else String.singleton c

/-- JSON string literal produced by `json.dumps`. -/
def dumpsStr (s : String) : String :=
  "\"" ++ String.join (s.toList.map escapeJsonChar) ++ "\""

mutual

/-- Python `json.dumps` with default separators (`", "` between items,
`": "` between a key and its value). -/
def dumps : Json → String
  | .null => "null"
  | .bool true => "true"
  | .bool false => "false"
  | .num n => toString n
  | .str s => dumpsStr s
  | .arr xs => "[" ++ dumpsList xs ++ "]"
  | .obj kvs => "\x7b" ++ dumpsFields kvs ++ "\x7d"

/-- Comma-separated array items. -/
def dumpsList : List Json → String
  | [] => ""
  | [x] => dumps x
  | x :: y :: rest => dumps x ++ ", " ++ dumpsList (y :: rest)

/-- Comma-separated object members. -/
def dumpsFields : List (String × Json) → String
  | [] => ""
  | [(k, v)] => dumpsStr k ++ ": " ++ dumps v
  | (k, v) :: m :: rest => dumpsStr k ++ ": " ++ dumps v ++ ", " ++ dumpsFields (m :: rest)

end

/-- One character of a Python string `repr` with quote character `q`
(characters at or above `0x80` are kept as-is; CPython escapes the
non-printable ones among them, which no claim exercises). -/
def pyReprEscape (q : Char) (c : Char) : String :=
  if c = '\\' then "\\\\"
  else if c = q then "\\" ++ String.singleton q
  else if c = '\n' then "\\n"
  else if c = '\r' then "\\r"
  else if c = '\t' then "\\t"
  else if c.toNat < 0x20 ∨ c.toNat = 0x7f then "\\x" ++ hex2 c.toNat
  else String.singleton c

/-- Python `repr` of a string: single-quoted, switching to double quotes
when the string holds a single quote but no double quote. -/
def pyReprStr (s : String) : String :=
  let q : Char := if s.toList.contains '\'' ∧ ¬ s.toList.contains '"' then '"' else '\''
  String.singleton q ++ String.join (s.toList.map (pyReprEscape q)) ++ String.singleton q

mutual

/-- Python `repr` of a JSON-decoded value (the element rendering used
inside `str()` of a `dict` or `list`). -/
def pyRepr : Json → String
  | .null => "None"
  | .bool true => "True"
  | .bool false => "False"
  | .num n => toString n
  | .str s => pyReprStr s
  | .arr xs => "[" ++ pyReprList xs ++ "]"
  | .obj kvs => "\x7b" ++ pyReprFields kvs ++ "\x7d"

/-- Comma-separated `repr` of list elements. -/
def pyReprList : List Json → String
  | [] => ""
  | [x] => pyRepr x
  | x :: y :: rest => pyRepr x ++ ", " ++ pyReprList (y :: rest)

/-- Comma-separated `repr` of dict items. -/
def pyReprFields : List (String × Json) → String
  | [] => ""
  | [(k, v)] => pyReprStr k ++ ": " ++ pyRepr v
  | (k, v) :: m :: rest => pyReprStr k ++ ": " ++ pyRepr v ++ ", " ++ pyReprFields (m :: rest)

end

/-- Python `str()` of a JSON-decoded value, as interpolated by an
f-string: a string renders as itself, everything else as its `repr`. -/
def pyStr : Json → String
  | .str s => s
  | j => pyRepr j

/-! The three handlers. -/

/-- Return value of a handler: the `statusCode` entry, and the `body`
entry when the returned dictionary has one. -/
structure Response where
  statusCode : Nat
  body : Option String
deriving Repr, DecidableEq

/-- Python `str()` of an exception, as printed by the webhook handler.
Only `KeyError` renders its argument; the text for the other exception
types is abbreviated to the class name, and no theorem depends on it. -/
def PyErr.pyMsg : PyErr → String
  | .keyError k => "'" ++ k ++ "'"
  | .typeError => "TypeError"
  | .attributeError => "AttributeError"
  | .jsonDecodeError => "JSONDecodeError"

namespace MqttLambda

/-- Handler of `mqtt-lambda/app.py`: reads `event['message']` inside a
`try` that catches only `KeyError`; any other exception propagates. -/
def lambda_handler (event : Json) : Except PyErr Response :=
  match subscript event "message" with
  | .ok _message =>
    .ok ⟨200, some (dumps (.obj [("status", Json.str "processed")]))⟩
  | .error (.keyError _) =>
    .ok ⟨400, some (dumps (.obj [("error", Json.str "Invalid message format")]))⟩
  | .error e => .error e

/-- Same handler with the `print` diagnostics made explicit: the first
component threads the process-wide output log, the second is the returned
value or propagated exception. -/
def invoke (log : List String) (event : Json) :
    List String × Except PyErr Response :=
  match subscript event "message" with
  | .ok message =>
    (log ++ ["MQTT message received: " ++ pyStr message],
     .ok ⟨200, some (dumps (.obj [("status", Json.str "processed")]))⟩)
  | .error (.keyError _) =>
    (log ++ ["Invalid MQTT message format"],
     .ok ⟨400, some (dumps (.obj [("error", Json.str "Invalid message format")]))⟩)
  | .error e => (log, .error e)

end MqttLambda

namespace WebhookLambda

/-- Handler of `webhook-lambda/app.py`: parses `event['body']` inside a
`try` whose `except Exception` catches every failure. -/
def lambda_handler (event : Json) : Except PyErr Response :=
  match (subscript event "body").bind loads with
  | .ok payload =>
    .ok ⟨200, some (dumps (.obj [("status", Json.str "success"), ("data", payload)]))⟩
  | .error _ =>
    .ok ⟨400, some (dumps (.obj [("error", Json.str "Invalid payload")]))⟩

/-- Same handler with the `print` diagnostics made explicit. -/
def invoke (log : List String) (event : Json) :
    List String × Except PyErr Response :=
  match (subscript event "body").bind loads with
  | .ok payload =>
    (log ++ ["Webhook received: " ++ pyStr payload],
     .ok ⟨200, some (dumps (.obj [("status", Json.str "success"), ("data", payload)]))⟩)
  | .error e =>
    (log ++ ["Error processing webhook: " ++ e.pyMsg],
     .ok ⟨400, some (dumps (.obj [("error", Json.str "Invalid payload")]))⟩)

end WebhookLambda

namespace WebSocketLambda

/-- Handler of `websocket-lambda/app.py`: dispatches on
`event.get('requestContext', \x7b\x7d).get('routeKey')`; nothing is
caught, so any exception raised on the way propagates. -/
def lambda_handler (event : Json) : Except PyErr Response :=
  (dictGet event "requestContext" (Json.obj [])).bind fun requestContext =>
  (dictGet requestContext "routeKey" Json.null).bind fun route_key =>
  if pyEqStr route_key "$connect" then .ok ⟨200, none⟩
  else if pyEqStr route_key "$disconnect" then .ok ⟨200, none⟩
  else if pyEqStr route_key "$default" then
    (dictGet event "body" (Json.str "\x7b\x7d")).bind fun raw =>
    (loads raw).map fun body =>
    ⟨200, some (dumps (.obj [("message", Json.str ("Echo: " ++ pyStr body))]))⟩
  else .ok ⟨400, none⟩

/-- Same handler with the output log threaded (this handler prints
nothing). -/
def invoke (log : List String) (event : Json) :
    List String × Except PyErr Response :=
  (log, lambda_handler event)

end WebSocketLambda

/-- Boolean observation that a handler run produced a Response rather
than propagating an exception. -/
def producesResponse : Except PyErr Response → Bool
  | .ok _ => true
  | .error _ => false

/-! Helper lemmas shared by the claim theorems. -/

theorem pyEqStr_iff (j : Json) (s : String) : pyEqStr j s = true ↔ j = Json.str s := by
  cases j <;> simp [pyEqStr]

theorem pyEqStr_eq_false (j : Json) (s : String) (h : j ≠ Json.str s) :
    pyEqStr j s = false := by
  cases j <;> simp_all [pyEqStr]

/-!
Claim C4 — the MQTT handler branches only on the presence of the
`message` key of a mapping event.
-/

/-- C4: for every envelope missing the `message` field, the MQTT handler
returns 400 with the fixed `Invalid message format` body; for every
envelope containing it, 200 with the fixed `processed` body, regardless
of the value. -/
theorem C4_mqtt_required_field (kvs : List (String × Json)) :
    (jlookup kvs "message" = none →
      MqttLambda.lambda_handler (.obj kvs) =
        .ok ⟨400, some (dumps (.obj [("error", Json.str "Invalid message format")]))⟩) ∧
    ∀ v, jlookup kvs "message" = some v →
      MqttLambda.lambda_handler (.obj kvs) =
        .ok ⟨200, some (dumps (.obj [("status", Json.str "processed")]))⟩ := by
  constructor
  · intro h
    simp [MqttLambda.lambda_handler, subscript, h]
  · intro v h
    simp [MqttLambda.lambda_handler, subscript, h]

/-- Witness for C4 at the spec's two example envelopes. -/
theorem C4_mqtt_required_field_witness :
    MqttLambda.lambda_handler (.obj [("message", Json.str "hello")]) =
      .ok ⟨200, some (dumps (.obj [("status", Json.str "processed")]))⟩ ∧
    MqttLambda.lambda_handler (.obj []) =
      .ok ⟨400, some (dumps (.obj [("error", Json.str "Invalid message format")]))⟩ :=
  ⟨(C4_mqtt_required_field [("message", Json.str "hello")]).2 (Json.str "hello") rfl,
   (C4_mqtt_required_field []).1 rfl⟩

/-!
Claim C5 — the webhook handler echoes a valid JSON `body` and collapses
every failure to the fixed 400 body.
-/

/-- C5: a syntactically valid JSON string `body` is echoed verbatim under
`data` with status 200; an absent or syntactically invalid `body` yields
400 with the fixed `Invalid payload` body. -/
theorem C5_webhook_echo_or_reject (kvs : List (String × Json)) :
    (∀ s v, jlookup kvs "body" = some (Json.str s) → parseJson s = some v →
      WebhookLambda.lambda_handler (.obj kvs) =
        .ok ⟨200, some (dumps (.obj [("status", Json.str "success"), ("data", v)]))⟩) ∧
    (jlookup kvs "body" = none →
      WebhookLambda.lambda_handler (.obj kvs) =
        .ok ⟨400, some (dumps (.obj [("error", Json.str "Invalid payload")]))⟩) ∧
    (∀ s, jlookup kvs "body" = some (Json.str s) → parseJson s = none →
      WebhookLambda.lambda_handler (.obj kvs) =
        .ok ⟨400, some (dumps (.obj [("error", Json.str "Invalid payload")]))⟩) := by
  refine ⟨fun s v hb hp => ?_, fun hb => ?_, fun s hb hp => ?_⟩
  · simp [WebhookLambda.lambda_handler, subscript, loads, Except.bind, hb, hp]
  · simp [WebhookLambda.lambda_handler, subscript, loads, Except.bind, hb]
  · simp [WebhookLambda.lambda_handler, subscript, loads, Except.bind, hb, hp]

/-- Witness for C5 at the spec's example envelopes 3 and 4. -/
theorem C5_webhook_echo_or_reject_witness :
    WebhookLambda.lambda_handler (.obj [("body", Json.str "\x7b\"x\": 1\x7d")]) =
      .ok ⟨200, some (dumps (.obj [("status", Json.str "success"),
        ("data", Json.obj [("x", Json.num 1)])]))⟩ ∧
    WebhookLambda.lambda_handler (.obj [("body", Json.str "not-json")]) =
      .ok ⟨400, some (dumps (.obj [("error", Json.str "Invalid payload")]))⟩ :=
  ⟨(C5_webhook_echo_or_reject [("body", Json.str "\x7b\"x\": 1\x7d")]).1 _ _ rfl rfl,
   (C5_webhook_echo_or_reject [("body", Json.str "not-json")]).2.2 _ rfl rfl⟩

/-!
Claim C9 — the webhook handler never checks that the parsed payload is a
mapping.
-/

/-- C9: a valid JSON `body` encoding a non-mapping value is still echoed
under `data` with status 200. -/
theorem C9_webhook_non_mapping_payload (kvs : List (String × Json)) (s : String)
    (v : Json) (hb : jlookup kvs "body" = some (Json.str s))
    (hp : parseJson s = some v) (_hv : v.isObj = false) :
    WebhookLambda.lambda_handler (.obj kvs) =
      .ok ⟨200, some (dumps (.obj [("status", Json.str "success"), ("data", v)]))⟩ := by
  simp [WebhookLambda.lambda_handler, subscript, loads, Except.bind, hb, hp]

/-- Witness for C9 at a JSON-array payload. -/
theorem C9_webhook_non_mapping_payload_witness :
    WebhookLambda.lambda_handler (.obj [("body", Json.str "[1, 2]")]) =
      .ok ⟨200, some (dumps (.obj [("status", Json.str "success"),
        ("data", Json.arr [Json.num 1, Json.num 2])]))⟩ :=
  C9_webhook_non_mapping_payload _ "[1, 2]" _ rfl rfl rfl

/-!
Claim C10 — a structured-but-not-serialized `body` is rejected by the
webhook handler.
-/

/-- C10: a present `body` that is not a string makes `json.loads` raise
`TypeError`, which the catch-all converts to the fixed 400 body. -/
theorem C10_webhook_nonstring_body (kvs : List (String × Json)) (b : Json)
    (hb : jlookup kvs "body" = some b) (hs : b.isStr = false) :
    WebhookLambda.lambda_handler (.obj kvs) =
      .ok ⟨400, some (dumps (.obj [("error", Json.str "Invalid payload")]))⟩ := by
  cases b <;>
    simp_all [WebhookLambda.lambda_handler, subscript, loads, Except.bind, Json.isStr]

/-- Witness for C10 at an already-parsed mapping body. -/
theorem C10_webhook_nonstring_body_witness :
    WebhookLambda.lambda_handler (.obj [("body", Json.obj [("a", Json.num 1)])]) =
      .ok ⟨400, some (dumps (.obj [("error", Json.str "Invalid payload")]))⟩ :=
  C10_webhook_nonstring_body _ (Json.obj [("a", Json.num 1)]) rfl rfl

/-!
Claim C6 — the `$connect` and `$disconnect` routes of the websocket
handler answer 200 with no body.
-/

/-- C6: for every envelope whose `requestContext.routeKey` is `$connect`
or `$disconnect`, the websocket handler returns 200 with no body,
independent of every other field of the envelope. -/
theorem C6_websocket_connect_disconnect (kvs rcs : List (String × Json))
    (hrc : jlookup kvs "requestContext" = some (Json.obj rcs))
    (hrk : jlookup rcs "routeKey" = some (Json.str "$connect") ∨
           jlookup rcs "routeKey" = some (Json.str "$disconnect")) :
    WebSocketLambda.lambda_handler (.obj kvs) = .ok ⟨200, none⟩ := by
  rcases hrk with h | h <;>
    simp [WebSocketLambda.lambda_handler, dictGet, hrc, h, pyEqStr, Except.bind]

/-- Witness for C6 at a `$connect` envelope carrying an unrelated body. -/
theorem C6_websocket_connect_disconnect_witness :
    WebSocketLambda.lambda_handler
      (.obj [("requestContext", Json.obj [("routeKey", Json.str "$connect")]),
             ("body", Json.str "ignored")]) = .ok ⟨200, none⟩ :=
  C6_websocket_connect_disconnect _ [("routeKey", Json.str "$connect")] rfl (Or.inl rfl)

/-!
Claim C7 — every other discriminant, absent ones included, answers 400
with no body.
-/

/-- C7: for every envelope whose `requestContext.routeKey` is absent
(including when `requestContext` itself is absent) or holds any value
other than `$connect`, `$disconnect` and `$default`, the websocket
handler returns 400 with no body. -/
theorem C7_websocket_unrecognized_route (kvs : List (String × Json))
    (h : jlookup kvs "requestContext" = none ∨
         ∃ rcs, jlookup kvs "requestContext" = some (Json.obj rcs) ∧
           ∀ r, jlookup rcs "routeKey" = some r →
             r ≠ Json.str "$connect" ∧ r ≠ Json.str "$disconnect" ∧
             r ≠ Json.str "$default") :
    WebSocketLambda.lambda_handler (.obj kvs) = .ok ⟨400, none⟩ := by
  rcases h with h | ⟨rcs, hrc, hr⟩
  · simp [WebSocketLambda.lambda_handler, dictGet, h, jlookup, pyEqStr, Except.bind]
  · cases hrk : jlookup rcs "routeKey" with
    | none =>
      simp [WebSocketLambda.lambda_handler, dictGet, hrc, hrk, pyEqStr, Except.bind]
    | some r =>
      obtain ⟨h1, h2, h3⟩ := hr r hrk
      simp [WebSocketLambda.lambda_handler, dictGet, hrc, hrk, Except.bind,
        pyEqStr_eq_false r _ h1, pyEqStr_eq_false r _ h2, pyEqStr_eq_false r _ h3]

/-- Witness for C7 at the spec's example envelope 6. -/
theorem C7_websocket_unrecognized_route_witness :
    WebSocketLambda.lambda_handler
      (.obj [("requestContext", Json.obj [("routeKey", Json.str "$other")])]) =
      .ok ⟨400, none⟩ :=
  C7_websocket_unrecognized_route _
    (Or.inr ⟨[("routeKey", Json.str "$other")], rfl,
      fun r hr => by
        simp [jlookup] at hr
        subst hr
        refine ⟨by simp, by simp, by simp⟩⟩)

/-!
Claim C2 — the `$default` route of the websocket handler.  The claim
says an unparseable present `body` also defaults to an empty mapping;
the code only defaults an absent `body` and raises on bad JSON.
-/

/-- C2 as stated is false: a `$default` envelope whose present `body` is
not valid JSON makes the handler raise `JSONDecodeError` instead of
echoing an empty mapping. -/
theorem C2_counterexample :
    WebSocketLambda.lambda_handler
      (.obj [("requestContext", Json.obj [("routeKey", Json.str "$default")]),
             ("body", Json.str "not-json")]) = .error .jsonDecodeError := rfl

/-- C2 amended: on `$default`, `body` defaults to an empty mapping only
when it is absent; a present `body` must be a string holding valid JSON,
whose parse is echoed as `Echo: ` followed by its `str()` rendering with
status 200, while an unparseable string raises `JSONDecodeError` and a
non-string raises `TypeError`. -/
theorem C2_websocket_default_echo (kvs rcs : List (String × Json))
    (hrc : jlookup kvs "requestContext" = some (Json.obj rcs))
    (hrk : jlookup rcs "routeKey" = some (Json.str "$default")) :
    (jlookup kvs "body" = none →
      WebSocketLambda.lambda_handler (.obj kvs) =
        .ok ⟨200, some (dumps (.obj [("message",
          Json.str ("Echo: " ++ pyStr (Json.obj [])))]))⟩) ∧
    (∀ s v, jlookup kvs "body" = some (Json.str s) → parseJson s = some v →
      WebSocketLambda.lambda_handler (.obj kvs) =
        .ok ⟨200, some (dumps (.obj [("message",
          Json.str ("Echo: " ++ pyStr v))]))⟩) ∧
    (∀ s, jlookup kvs "body" = some (Json.str s) → parseJson s = none →
      WebSocketLambda.lambda_handler (.obj kvs) = .error .jsonDecodeError) ∧
    (∀ b, jlookup kvs "body" = some b → b.isStr = false →
      WebSocketLambda.lambda_handler (.obj kvs) = .error .typeError) := by
  have hparse : parseJson "\x7b\x7d" = some (Json.obj []) := rfl
  refine ⟨fun hb => ?_, fun s v hb hp => ?_, fun s hb hp => ?_, fun b hb hs => ?_⟩
  · simp [WebSocketLambda.lambda_handler, dictGet, hrc, hrk, hb, loads, hparse,
      pyEqStr, Except.bind, Except.map]
  · simp [WebSocketLambda.lambda_handler, dictGet, hrc, hrk, hb, loads, hp,
      pyEqStr, Except.bind, Except.map]
  · simp [WebSocketLambda.lambda_handler, dictGet, hrc, hrk, hb, loads, hp,
      pyEqStr, Except.bind, Except.map]
  · cases b <;> simp_all [WebSocketLambda.lambda_handler, dictGet, hrc, hrk, hb,
      loads, Json.isStr, pyEqStr, Except.bind, Except.map]

/-- Witness for C2 amended at the spec's example envelope 5 and at an
absent body. -/
theorem C2_websocket_default_echo_witness :
    WebSocketLambda.lambda_handler
      (.obj [("requestContext", Json.obj [("routeKey", Json.str "$default")]),
             ("body", Json.str "\x7b\"a\": 1\x7d")]) =
      .ok ⟨200, some (dumps (.obj [("message",
        Json.str ("Echo: " ++ pyStr (Json.obj [("a", Json.num 1)])))]))⟩ ∧
    WebSocketLambda.lambda_handler
      (.obj [("requestContext", Json.obj [("routeKey", Json.str "$default")])]) =
      .ok ⟨200, some (dumps (.obj [("message",
        Json.str ("Echo: " ++ pyStr (Json.obj [])))]))⟩ :=
  ⟨(C2_websocket_default_echo
      [("requestContext", Json.obj [("routeKey", Json.str "$default")]),
       ("body", Json.str "\x7b\"a\": 1\x7d")]
      [("routeKey", Json.str "$default")] rfl rfl).2.1 _ _ rfl rfl,
   (C2_websocket_default_echo
      [("requestContext", Json.obj [("routeKey", Json.str "$default")])]
      [("routeKey", Json.str "$default")] rfl rfl).1 rfl⟩

/-!
Claim C1 — the catch-all boundary.  Only the webhook handler has a
catch-all; the MQTT handler catches only `KeyError` and the websocket
handler catches nothing.
-/

/-- C1 as stated is false: a `$default` envelope whose `body` is not
valid JSON makes the websocket handler propagate `JSONDecodeError`
rather than return a 400-class Response. -/
theorem C1_counterexample :
    WebSocketLambda.lambda_handler
      (.obj [("requestContext", Json.obj [("routeKey", Json.str "$default")]),
             ("body", Json.str "x")]) = .error .jsonDecodeError := rfl

/-- C1 amended: the webhook handler returns a Response on every event;
the MQTT handler returns a Response on every mapping event but
propagates `TypeError` on a non-mapping event; the websocket handler
propagates `AttributeError` on a non-mapping event (and, per
`C2_websocket_default_echo`, propagates on a `$default` body that is
non-string or not valid JSON). -/
theorem C1_fault_boundary :
    (∀ event, producesResponse (WebhookLambda.lambda_handler event) = true) ∧
    (∀ kvs, producesResponse (MqttLambda.lambda_handler (Json.obj kvs)) = true) ∧
    (∀ event, event.isObj = false →
      MqttLambda.lambda_handler event = .error .typeError ∧
      WebSocketLambda.lambda_handler event = .error .attributeError) := by
  refine ⟨fun event => ?_, fun kvs => ?_, fun event h => ?_⟩
  · cases hb : (subscript event "body").bind loads <;>
      simp [WebhookLambda.lambda_handler, producesResponse, hb]
  · cases hm : jlookup kvs "message" <;>
      simp [MqttLambda.lambda_handler, subscript, producesResponse, hm]
  · cases event with
    | obj fields => simp [Json.isObj] at h
    | null => exact ⟨rfl, rfl⟩
    | bool b => exact ⟨rfl, rfl⟩
    | num n => exact ⟨rfl, rfl⟩
    | str s => exact ⟨rfl, rfl⟩
    | arr xs => exact ⟨rfl, rfl⟩

/-- Witness for C1 amended at a null event and a non-mapping numeric
event. -/
theorem C1_fault_boundary_witness :
    producesResponse (WebhookLambda.lambda_handler Json.null) = true ∧
    MqttLambda.lambda_handler (Json.num 3) = .error .typeError :=
  ⟨C1_fault_boundary.1 Json.null, (C1_fault_boundary.2.2 (Json.num 3) rfl).1⟩

/-!
Claim C3 — the two-outcome taxonomy.  Every Response that is produced
carries status 200 or 400, but the second half of the claim (every
internal fault is downgraded) fails exactly where C1 does.
-/

/-- C3 as stated is false: the MQTT handler applied to a non-mapping
event propagates `TypeError`; the fault is not downgraded to a Client
Error Response. -/
theorem C3_counterexample :
    MqttLambda.lambda_handler (Json.arr []) = .error .typeError := rfl

theorem mqtt_ok_status (event : Json) (r : Response)
    (h : MqttLambda.lambda_handler event = .ok r) :
    r.statusCode = 200 ∨ r.statusCode = 400 := by
  unfold MqttLambda.lambda_handler at h
  split at h
  · injection h with h2; subst h2; exact Or.inl rfl
  · injection h with h2; subst h2; exact Or.inr rfl
  · simp at h

theorem webhook_ok_status (event : Json) (r : Response)
    (h : WebhookLambda.lambda_handler event = .ok r) :
    r.statusCode = 200 ∨ r.statusCode = 400 := by
  unfold WebhookLambda.lambda_handler at h
  split at h
  · injection h with h2; subst h2; exact Or.inl rfl
  · injection h with h2; subst h2; exact Or.inr rfl

theorem websocket_ok_status (event : Json) (r : Response)
    (h : WebSocketLambda.lambda_handler event = .ok r) :
    r.statusCode = 200 ∨ r.statusCode = 400 := by
  unfold WebSocketLambda.lambda_handler at h
  cases event with
  | obj kvs =>
    simp only [dictGet, Except.bind] at h
    cases hj : (jlookup kvs "requestContext").getD (Json.obj []) with
    | obj rcs =>
      rw [hj] at h
      simp only [dictGet, Except.bind] at h
      split_ifs at h
      · injection h with h2; subst h2; exact Or.inl rfl
      · injection h with h2; subst h2; exact Or.inl rfl
      · cases hl : loads ((jlookup kvs "body").getD (Json.str "\x7b\x7d")) with
        | error e => rw [hl] at h; simp [Except.map] at h
        | ok v =>
          rw [hl] at h
          simp only [Except.map] at h
          injection h with h2; subst h2; exact Or.inl rfl
      · injection h with h2; subst h2; exact Or.inr rfl
    | null => rw [hj] at h; simp [dictGet, Except.bind] at h
    | bool b => rw [hj] at h; simp [dictGet, Except.bind] at h
    | num n => rw [hj] at h; simp [dictGet, Except.bind] at h
    | str s => rw [hj] at h; simp [dictGet, Except.bind] at h
    | arr xs => rw [hj] at h; simp [dictGet, Except.bind] at h
  | null => simp [dictGet, Except.bind] at h
  | bool b => simp [dictGet, Except.bind] at h
  | num n => simp [dictGet, Except.bind] at h
  | str s => simp [dictGet, Except.bind] at h
  | arr xs => simp [dictGet, Except.bind] at h

/-- C3 amended: whenever any of the three handlers produces a Response,
its statusCode is 200 or 400 and nothing else — there is no 5xx class;
however, not every internal fault is downgraded: some propagate as
exceptions (see `C3_counterexample`). -/
theorem C3_status_codes (event : Json) (r : Response)
    (h : MqttLambda.lambda_handler event = .ok r ∨
         WebhookLambda.lambda_handler event = .ok r ∨
         WebSocketLambda.lambda_handler event = .ok r) :
    r.statusCode = 200 ∨ r.statusCode = 400 := by
  rcases h with h | h | h
  · exact mqtt_ok_status event r h
  · exact webhook_ok_status event r h
  · exact websocket_ok_status event r h

/-- Witness for C3 amended at the spec's example envelope 1. -/
theorem C3_status_codes_witness :
    (Response.mk 200 (some (dumps (Json.obj [("status",
      Json.str "processed")])))).statusCode = 200 ∨
    (Response.mk 200 (some (dumps (Json.obj [("status",
      Json.str "processed")])))).statusCode = 400 :=
  C3_status_codes (Json.obj [("message", Json.num 1)]) _ (Or.inl rfl)

/-!
Claim C8 — idempotence: invoking a handler twice with the identical
envelope yields identical responses; the only process-wide state, the
diagnostic output log, never feeds back into the returned value.
-/

theorem mqtt_invoke_snd (log : List String) (event : Json) :
    (MqttLambda.invoke log event).2 = MqttLambda.lambda_handler event := by
  cases hs : subscript event "message" with
  | ok v => simp [MqttLambda.invoke, MqttLambda.lambda_handler, hs]
  | error e => cases e <;> simp [MqttLambda.invoke, MqttLambda.lambda_handler, hs]

theorem webhook_invoke_snd (log : List String) (event : Json) :
    (WebhookLambda.invoke log event).2 = WebhookLambda.lambda_handler event := by
  cases hs : (subscript event "body").bind loads <;>
    simp [WebhookLambda.invoke, WebhookLambda.lambda_handler, hs]

/-- C8: running any of the three handlers a second time on the identical
envelope, starting from the output log the first run left behind, yields
exactly the response of the first run — the handlers are deterministic
and the log is the only state they touch. -/
theorem C8_idempotent_invocations (event : Json) (log : List String) :
    (MqttLambda.invoke (MqttLambda.invoke log event).1 event).2 =
      (MqttLambda.invoke log event).2 ∧
    (WebhookLambda.invoke (WebhookLambda.invoke log event).1 event).2 =
      (WebhookLambda.invoke log event).2 ∧
    (WebSocketLambda.invoke (WebSocketLambda.invoke log event).1 event).2 =
      (WebSocketLambda.invoke log event).2 :=
  ⟨by rw [mqtt_invoke_snd, mqtt_invoke_snd],
   by rw [webhook_invoke_snd, webhook_invoke_snd],
   rfl⟩

end LambdaApps
